import Mathlib

/-
Verification of the legal-document analysis backend (two Express server
variants: server.js and an earlier unnamed variant). The JavaScript is
shallowly embedded: JS numbers are modelled as exact rationals or naturals,
JSON object fields that may be absent as Option, and the side-effecting
request handlers as pure functions over an explicit environment that fixes
the outcome of every external call (database lookup, model invocation,
filesystem deletion). Math.round is modelled by Mathlib round, which rounds
halves up exactly as JS Math.round does on nonnegative arguments.
-/

namespace LegalBackend

/-! ## Analysis result data model (the JSON tree produced by the model) -/

/-- One entry of greenRisks / yellowRisks / redRisks in the analysis JSON. -/
structure RiskItem where
  type : String
  description : String
  location : String
  recommendation : String
  deriving DecidableEq

/-- One entry of the suggestedQuestions array. -/
structure SuggestedQuestion where
  question : String
  answer : String
  category : String
  deriving DecidableEq

/-- One entry of the legalReferences array. -/
structure LegalRef where
  reference : String
  context : String
  shortExplanation : String
  relevance : String
  deriving DecidableEq

/-- One entry of the vagueTerms array. -/
structure VagueTerm where
  term : String
  context : String
  issue : String
  suggestion : String
  deriving DecidableEq

/-- One entry of the keyTerms array. -/
structure KeyTerm where
  category : String
  term : String
  explanation : String
  importance : String
  deriving DecidableEq

/-- The summary block of the analysis JSON; every field may be absent. -/
structure Summary where
  documentType : Option String
  mainPurpose : Option String
  keyHighlights : Option (List String)
  whatIsIncluded : Option (List String)
  contractSummary : Option String
  wordCount : Option ℕ
  estimatedReadingTime : Option String
  deriving DecidableEq

/-- The riskAssessment block of the analysis JSON; every field may be absent.
The riskScore field holds whatever number the model emitted. -/
structure RiskAssessment where
  overallRisk : Option String
  greenPoints : Option ℕ
  yellowPoints : Option ℕ
  redPoints : Option ℕ
  riskScore : Option ℤ
  greenRisks : Option (List RiskItem)
  yellowRisks : Option (List RiskItem)
  redRisks : Option (List RiskItem)
  deriving DecidableEq

/-- Optional party names supplied with the request. -/
structure Parties where
  party1 : Option String
  party2 : Option String
  deriving DecidableEq

/-- The metadata block attached by the server to every returned analysis. -/
structure AnalysisMeta where
  analysisId : String
  timestamp : String
  model : String
  parties : Parties
  error : Option String
  deriving DecidableEq

/-- The whole analysis tree as parsed from the model output (or as returned
to the client). Fields that the model may omit are Option. -/
structure Analysis where
  summary : Option Summary
  riskAssessment : Option RiskAssessment
  legalReferences : Option (List LegalRef)
  vagueTerms : Option (List VagueTerm)
  keyTerms : Option (List KeyTerm)
  recommendations : Option (List String)
  redFlags : Option (List String)
  suggestedQuestions : Option (List SuggestedQuestion)
  metadata : Option AnalysisMeta
  deriving DecidableEq

/-! ## calculateRiskScore (server.js lines 147-163) -/

/-- calculateRiskScore from server.js: total = green + yellow + red; 50 when
the total is 0, otherwise Math.round of (green + 0.5 * yellow) / total * 100.
JS numbers are modelled as exact rationals. -/
def calculateRiskScore (greenPoints yellowPoints redPoints : ℕ) : ℤ :=
  let totalPoints := greenPoints + yellowPoints + redPoints
  if totalPoints = 0 then 50
  else
    let numerator : ℚ := (greenPoints : ℚ) + (1 / 2) * (yellowPoints : ℚ)
    let frac : ℚ := numerator / (totalPoints : ℚ)
    round (frac * 100)

/-! ## Response normalization (server.js lines 342-408) -/

/-- The five fallback suggested questions installed by server.js when the
parsed analysis is missing the suggestedQuestions array (lines 378-406). -/
def defaultSuggestedQuestions : List SuggestedQuestion :=
  [ { question := "What are my main obligations under this contract?"
      answer := "Based on the contract analysis, your main obligations would be determined by the specific terms outlined in the agreement. Please refer to the key terms section for detailed obligations."
      category := "Obligations" }
  , { question := "How can this contract be terminated?"
      answer := "Contract termination procedures should be clearly outlined in the termination clause. Look for specific notice periods and termination conditions."
      category := "Termination" }
  , { question := "What are the payment terms?"
      answer := "Payment terms including amounts, due dates, and payment methods should be specified in the contract. Check for any late payment penalties."
      category := "Payment" }
  , { question := "What happens if there\x27s a dispute?"
      answer := "Dispute resolution mechanisms such as mediation, arbitration, or court procedures should be outlined in the contract."
      category := "General" }
  , { question := "What are the potential risks I should be aware of?"
      answer := "Based on the risk assessment, review the identified risks and red flags in the analysis above."
      category := "General" } ]

/-- Normalization of the riskAssessment block (server.js lines 346-354):
destructure the three counts with default 0, overwrite riskScore with the
recomputed value, and backfill absent risk arrays with empty arrays. -/
def normalizeRiskAssessment (ra : RiskAssessment) : RiskAssessment :=
  let g := ra.greenPoints.getD 0
  let y := ra.yellowPoints.getD 0
  let r := ra.redPoints.getD 0
  { ra with
    riskScore := some (calculateRiskScore g y r)
    greenRisks := some (ra.greenRisks.getD [])
    yellowRisks := some (ra.yellowRisks.getD [])
    redRisks := some (ra.redRisks.getD []) }

/-- Normalization of the summary block (server.js lines 369-376). A present
but empty contractSummary string is falsy in JS and is replaced too. -/
def normalizeSummary (s : Summary) : Summary :=
  { s with
    whatIsIncluded := some (s.whatIsIncluded.getD ["Contract details could not be fully extracted"])
    contractSummary :=
      match s.contractSummary with
      | some c =>
          if c = "" then some "A detailed summary of the contract could not be generated. Please review the document manually."
          else some c
      | none => some "A detailed summary of the contract could not be generated. Please review the document manually." }

/-- The post-parse normalization performed by analyzeContractWithGemini on a
successfully parsed model response (server.js lines 342-408): recompute the
risk score and backfill risk arrays when riskAssessment is present, attach a
fresh metadata block, and backfill legalReferences, the summary defaults and
suggestedQuestions when absent. The fields vagueTerms, keyTerms, redFlags
and recommendations are left untouched. -/
def normalizeAnalysis (a : Analysis) (analysisId timestamp : String)
    (parties : Parties) : Analysis :=
  { a with
    riskAssessment := a.riskAssessment.map normalizeRiskAssessment
    metadata := some { analysisId := analysisId, timestamp := timestamp,
                       model := "gemini-2.5-flash", parties := parties, error := none }
    legalReferences := some (a.legalReferences.getD [])
    summary := a.summary.map normalizeSummary
    suggestedQuestions := some (a.suggestedQuestions.getD defaultSuggestedQuestions) }

/-- Length of the array produced by the JS expression text.split(' '):
splitting on the single space character keeps empty segments, so the result
has one more element than the number of space characters in the text. -/
def splitSpaceLen (s : String) : ℕ := s.toList.count ' ' + 1

/-- Modelled from the spec: the spec claims the fallback word count is
"computed from the original source text by whitespace splitting", i.e. the
number of maximal nonempty runs of non-whitespace characters. Stated only to
be compared against the source definition splitSpaceLen. -/
def specWhitespaceWordCount (s : String) : ℕ :=
  ((s.toList.splitOnP Char.isWhitespace).filter (fun w => w ≠ [])).length

/-- The single yellow-tier finding of the parse-failure fallback response
(server.js lines 432-437). -/
def analysisErrorItem : RiskItem :=
  { type := "Analysis Error"
    description := "Unable to parse detailed analysis. Please try again or contact support."
    location := "General"
    recommendation := "Retry analysis or seek manual review" }

/-- The fixed degraded analysis returned by analyzeContractWithGemini when
JSON.parse fails on the model output (server.js lines 410-460). -/
def fallbackAnalysis (text : String) (analysisId timestamp : String)
    (parties : Parties) : Analysis :=
  { summary := some
      { documentType := some "Legal Document"
        mainPurpose := some "Contract Analysis"
        keyHighlights := some ["Document processed successfully"]
        whatIsIncluded := some ["Analysis in progress"]
        contractSummary := some "Unable to generate summary due to processing error. Please retry analysis."
        wordCount := some (splitSpaceLen text)
        estimatedReadingTime := some "5 minutes" }
    riskAssessment := some
      { overallRisk := some "Medium"
        greenPoints := some 0
        yellowPoints := some 1
        redPoints := some 0
        riskScore := some 50
        greenRisks := some []
        yellowRisks := some [analysisErrorItem]
        redRisks := some [] }
    legalReferences := some []
    vagueTerms := some []
    keyTerms := some []
    recommendations := some ["Please retry the analysis for detailed insights"]
    redFlags := some []
    suggestedQuestions := some
      [ { question := "What are my main obligations under this contract?"
          answer := "Due to analysis error, please retry the document analysis for specific obligation details."
          category := "Obligations" } ]
    metadata := some { analysisId := analysisId, timestamp := timestamp,
                       model := "gemini-2.5-flash", parties := parties,
                       error := some "JSON parsing failed" } }

/-- analyzeContractWithGemini after the model call returned text: the parsed
JSON (some a) goes through normalization, a parse failure (none) yields the
fixed fallback built from the original source text. -/
def geminiAnalyze (parsed : Option Analysis) (text : String)
    (analysisId timestamp : String) (parties : Parties) : Analysis :=
  match parsed with
  | some a => normalizeAnalysis a analysisId timestamp parties
  | none => fallbackAnalysis text analysisId timestamp parties

/-! ## Streaming question answering (server.js lines 469-555) -/

/-- One server-sent event written by answerQuestionWithGeminiStream: either a
chunk event carrying one text increment, or the final done event carrying the
accumulated full answer plus response metadata. -/
inductive SSEvent where
  | chunk (text : String)
  | done (fullText : String) (questionId : String) (timestamp : String) (model : String)
  deriving DecidableEq

/-- The streaming loop of answerQuestionWithGeminiStream (lines 522-547):
fullAnswer starts empty, each provider increment is appended to it and
forwarded as a chunk event, and after the stream ends one done event carrying
fullAnswer is written. The provider increments are given as a list. -/
def streamEventsFrom (questionId timestamp : String) :
    String → List String → List SSEvent
  | fullAnswer, [] =>
      [SSEvent.done fullAnswer questionId timestamp "gemini-2.5-flash"]
  | fullAnswer, c :: cs =>
      SSEvent.chunk c :: streamEventsFrom questionId timestamp (fullAnswer ++ c) cs

/-- The whole event sequence written to the response for one successful
streaming question request. -/
def answerQuestionStream (chunks : List String) (questionId timestamp : String) :
    List SSEvent :=
  streamEventsFrom questionId timestamp "" chunks

/-! ## The analyze-document handler (server.js lines 569-706) -/

/-- A row of the user_data table as seen by the authentication lookup
(select email, serial). -/
structure AuthRecord where
  email : String
  serial : ℤ
  deriving DecidableEq

/-- Insertion of a record into a list sorted by serial descending. -/
def insertBySerialDesc (r : AuthRecord) : List AuthRecord → List AuthRecord
  | [] => [r]
  | x :: xs => if x.serial ≤ r.serial then r :: x :: xs else x :: insertBySerialDesc r xs

/-- Insertion sort by serial descending, modelling the order clause of the
Supabase query (order serial, ascending false). -/
def sortBySerialDesc : List AuthRecord → List AuthRecord
  | [] => []
  | x :: xs => insertBySerialDesc x (sortBySerialDesc xs)

/-- The authentication lookup of server.js lines 583-588: rows whose email
matches, ordered by serial descending, limited to one row. -/
def authQuery (db : List AuthRecord) (e : String) : List AuthRecord :=
  (sortBySerialDesc (db.filter (fun r => r.email == e))).take 1

/-- The uploaded file as the handler sees it: the name sent by the client,
the generated temp path the middleware stored it under, and the outcome of
text extraction (none models extractTextFromFile throwing). -/
structure TempUpload where
  originalname : String
  path : String
  extracted : Option String
  deriving DecidableEq

/-- The request body/file of one analyze-document call. A missing field is
none; JS treats an empty string field as missing via truthiness checks. -/
structure AnalyzeRequest where
  file : Option TempUpload
  text : Option String
  email : Option String
  deriving DecidableEq

/-- Everything external the handler consults, fixed up front: the user_data
table, whether the auth lookup errors, whether the Gemini key is configured,
whether the model call throws, the parse result of the model output when the
call succeeds, the generated identifier and timestamp, and the parsed party
metadata. -/
structure AnalyzeEnv where
  db : List AuthRecord
  authFails : Bool
  geminiConfigured : Bool
  providerFails : Bool
  parsed : Option Analysis
  analysisId : String
  timestamp : String
  parties : Parties
  deriving DecidableEq

/-- The successful (HTTP 200) response body of analyze-document. -/
structure OkBody where
  analysis : Analysis
  originalText : String
  source : String
  originalFilename : Option String
  contentLength : ℕ
  email : String
  isAuthenticated : Bool
  totalRecords : ℕ
  deriving DecidableEq

/-- The handler response: a 400 with an error string, a 500 with error and
message strings, or a 200 with the success body. -/
inductive HandlerResponse where
  | badRequest (error : String)
  | serverError (error : String) (message : String)
  | ok (body : OkBody)
  deriving DecidableEq

/-- Result of one handler run: the response, whether the Gemini analysis
call was made, and the temp-directory contents after the finally block. -/
structure HandlerOutcome where
  response : HandlerResponse
  providerCalled : Bool
  tempFiles : List String
  deriving DecidableEq

/-- The finally block of the handler (server.js lines 695-705): if the
filePath variable was set and the file still exists, deletion is attempted;
a deletion failure is only logged, so the file then stays. -/
def cleanupTempFile (deleteFails : Bool) (filePath : Option String)
    (files : List String) : List String :=
  match filePath with
  | none => files
  | some p => if files.contains p && !deleteFails then files.erase p else files

/-- The 400 message for documents under 100 characters (server.js line 635). -/
def tooShortError : String :=
  "Document content is too short for meaningful analysis (minimum 100 characters)"

/-- The 400 message for documents over 100000 characters (server.js line 642). -/
def tooLongError : String :=
  "Document content is too long (maximum 100,000 characters)"

/-- The handler tail once documentText is resolved (server.js lines 632-686):
length validation, the Gemini-key configuration check, the model call and the
200 response. Returns the response plus whether the model call was made. -/
def analyzeCore (env : AnalyzeEnv) (documentText source : String)
    (origName : Option String) (e : String) (isAuth : Bool)
    (totalRecords : ℕ) : HandlerResponse × Bool :=
  if documentText.length < 100 then (.badRequest tooShortError, false)
  else if documentText.length > 100000 then (.badRequest tooLongError, false)
  else if !env.geminiConfigured then
    (.serverError "AI service not configured" "Gemini API key not found", false)
  else if env.providerFails then
    (.serverError "Failed to process document" "Failed to analyze document with AI", true)
  else
    (.ok { analysis := geminiAnalyze env.parsed documentText env.analysisId env.timestamp env.parties
           originalText := documentText
           source := source
           originalFilename := origName
           contentLength := documentText.length
           email := e
           isAuthenticated := isAuth
           totalRecords := totalRecords }, true)

/-- The analyze-document handler of server.js lines 569-706. The temp
directory initially holds exactly the file the upload middleware stored for
this request. Each exit path runs the finally block on the filePath variable
as set at that point: filePath is only assigned once the file branch of
source resolution is reached, so earlier exits delete nothing. -/
def analyzeDocument (env : AnalyzeEnv) (req : AnalyzeRequest)
    (deleteFails : Bool) : HandlerOutcome :=
  let tempFiles0 : List String :=
    match req.file with
    | some f => [f.path]
    | none => []
  match req.email with
  | none =>
      { response := .badRequest "Email is required for authentication"
        providerCalled := false
        tempFiles := cleanupTempFile deleteFails none tempFiles0 }
  | some e =>
      if e == "" then
        { response := .badRequest "Email is required for authentication"
          providerCalled := false
          tempFiles := cleanupTempFile deleteFails none tempFiles0 }
      else if env.authFails then
        { response := .serverError "Authentication check failed" "auth lookup failed"
          providerCalled := false
          tempFiles := cleanupTempFile deleteFails none tempFiles0 }
      else
        let userData := authQuery env.db e
        let isAuth := !userData.isEmpty
        let totalRecords := if userData.length > 0 then userData.length else 0
        match req.file with
        | some f =>
            match f.extracted with
            | none =>
                { response := .serverError "Failed to process document" "Failed to extract text from document"
                  providerCalled := false
                  tempFiles := cleanupTempFile deleteFails (some f.path) tempFiles0 }
            | some documentText =>
                let rc := analyzeCore env documentText "file" (some f.originalname) e isAuth totalRecords
                { response := rc.1
                  providerCalled := rc.2
                  tempFiles := cleanupTempFile deleteFails (some f.path) tempFiles0 }
        | none =>
            match req.text with
            | some t =>
                if t == "" then
                  { response := .badRequest "No document or text provided"
                    providerCalled := false
                    tempFiles := cleanupTempFile deleteFails none tempFiles0 }
                else
                  let rc := analyzeCore env t "text" none e isAuth totalRecords
                  { response := rc.1
                    providerCalled := rc.2
                    tempFiles := cleanupTempFile deleteFails none tempFiles0 }
            | none =>
                { response := .badRequest "No document or text provided"
                  providerCalled := false
                  tempFiles := cleanupTempFile deleteFails none tempFiles0 }

/-- The documentText the handler would resolve from a request, if any: text
extracted from an uploaded file when one is present, otherwise a nonempty
inline text field. -/
def resolvedText (req : AnalyzeRequest) : Option String :=
  match req.file with
  | some f => f.extracted
  | none =>
      match req.text with
      | some t => if t == "" then none else some t
      | none => none

/-! ## The save-user-data endpoint (server.js lines 821-896) -/

/-- A JSON value, used for the opaque request-body fields of save-user-data. -/
inductive JVal where
  | jnull
  | jbool (b : Bool)
  | jnum (q : ℚ)
  | jstr (s : String)
  | jarr (xs : List JVal)
  | jobj (fields : List (String × JVal))

/-- JS truthiness test on a possibly-absent JSON value: undefined, null,
false, 0 and the empty string are falsy; every array and object is truthy. -/
def jsFalsy : Option JVal → Bool
  | none => true
  | some .jnull => true
  | some (.jbool b) => !b
  | some (.jnum q) => q == 0
  | some (.jstr s) => s == ""
  | some (.jarr _) => false
  | some (.jobj _) => false

/-- The body of a save-user-data request; absent fields are none. -/
structure SaveBody where
  email : Option JVal
  serial : Option JVal
  data : Option JVal

/-- A stored row of the user_data table: text email, integer serial, opaque
JSON data, and the updated_at column (set only by updates). -/
structure UserRow where
  email : String
  serial : ℤ
  data : JVal
  updatedAt : Option String

/-- The composite-key match used by the eq(email).eq(serial) filters. -/
def rowMatches (e : String) (s : ℤ) (r : UserRow) : Bool :=
  r.email == e && r.serial == s

/-- The string contents of a JSON value, if it is a string. -/
def JVal.asString? : JVal → Option String
  | .jstr s => some s
  | _ => none

/-- The integer contents of a JSON value, if it is an integral number. -/
def JVal.asInt? : JVal → Option ℤ
  | .jnum q => if q.den = 1 then some q.num else none
  | _ => none

/-- The response of the save-user-data endpoint. -/
inductive SaveResult where
  | badRequest (error : String)
  | serverError (error : String)
  | ok (message : String) (row : UserRow) (operation : String)

/-- The validation gate of server.js lines 825-829: the request is rejected
when email is falsy, serial is strictly undefined, or data is falsy. -/
def saveBodyValid (body : SaveBody) : Bool :=
  !(jsFalsy body.email || body.serial.isNone || jsFalsy body.data)

/-- The save-user-data handler (server.js lines 821-896): after validation,
look the row up by (email, serial); update the existing row (setting
updated_at) and answer operation update, or insert a new row and answer
operation insert. A stored email must be a string and a stored serial an
integral number; other shapes fail at the store and surface as the catch-all
500. fetchFails and writeFails model the store erroring on the lookup or on
the write. Returns the response and the table after the call. -/
def saveUserData (body : SaveBody) (db : List UserRow) (now : String)
    (fetchFails writeFails : Bool) : SaveResult × List UserRow :=
  if !saveBodyValid body then
    (.badRequest "Email, serial, and data are required", db)
  else
    match body.email.bind JVal.asString?, body.serial.bind JVal.asInt?, body.data with
    | some e, some s, some d =>
        if fetchFails then (.serverError "Failed to save data", db)
        else
          match db.find? (rowMatches e s) with
          | some r0 =>
              if writeFails then (.serverError "Failed to save data", db)
              else
                let upd : UserRow → UserRow := fun r =>
                  if rowMatches e s r then { r with data := d, updatedAt := some now } else r
                (.ok "Data updated successfully" (upd r0) "update", db.map upd)
          | none =>
              if writeFails then (.serverError "Failed to save data", db)
              else
                let row : UserRow := { email := e, serial := s, data := d, updatedAt := none }
                (.ok "Data saved successfully" row "insert", db ++ [row])
    | _, _, _ => (.serverError "Failed to save data", db)

/-! ## Concrete fixtures used by witnesses and counterexamples -/

/-- Empty party metadata. -/
def partiesNone : Parties := ⟨none, none⟩

/-- A 100-character document text, the shortest accepted length. -/
def text100 : String := String.mk (List.replicate 100 'a')

/-- A 179-character document text containing newlines but no spaces. -/
def c5text : String := String.intercalate "\n" (List.replicate 60 "ab")

/-- A base environment: empty user table, auth lookup succeeds, Gemini key
configured, model call succeeds but its output fails JSON parsing. -/
def envBase : AnalyzeEnv :=
  { db := [], authFails := false, geminiConfigured := true, providerFails := false
    parsed := none, analysisId := "id0", timestamp := "ts0", parties := partiesNone }

/-- An environment whose user table holds two records for the same email. -/
def envTwoRecords : AnalyzeEnv :=
  { envBase with db := [⟨"u@x", 1⟩, ⟨"u@x", 2⟩] }

/-- A request carrying only inline text. -/
def reqText100 : AnalyzeRequest :=
  { file := none, text := some text100, email := some "u@x" }

/-- A request carrying both an uploaded file and inline text. -/
def reqBothSources : AnalyzeRequest :=
  { file := some ⟨"doc.txt", "/temp/u1.txt", some text100⟩
    text := some text100, email := some "u@x" }

/-- A request carrying an uploaded file and no email field. -/
def reqFileNoEmail : AnalyzeRequest :=
  { file := some ⟨"doc.txt", "/temp/u1.txt", some text100⟩
    text := none, email := none }

/-- A request carrying only an uploaded file, with an email. -/
def reqFileOnly : AnalyzeRequest :=
  { file := some ⟨"doc.txt", "/temp/u1.txt", some text100⟩
    text := none, email := some "u@x" }

/-- A parsed riskAssessment block with counts 2/1/1 and a model-supplied
riskScore of 999. -/
def raW : RiskAssessment :=
  ⟨none, some 2, some 1, some 1, some 999, none, none, none⟩

/-- A parsed analysis holding only the riskAssessment block raW. -/
def aW : Analysis := ⟨none, some raW, none, none, none, none, none, none, none⟩

/-- A parsed analysis with every field absent. -/
def allNoneAnalysis : Analysis := ⟨none, none, none, none, none, none, none, none, none⟩

/-! ## Helper lemmas -/

lemma foldl_append_shift (l : List String) (a b : String) :
    l.foldl (· ++ ·) (a ++ b) = a ++ l.foldl (· ++ ·) b := by
  induction l generalizing b with
  | nil => rfl
  | cons x xs ih =>
      simp only [List.foldl_cons]
      rw [String.append_assoc]
      exact ih (b ++ x)

lemma stringJoin_cons (c : String) (cs : List String) :
    String.join (c :: cs) = c ++ String.join cs := by
  show cs.foldl (· ++ ·) ("" ++ c) = c ++ cs.foldl (· ++ ·) ""
  rw [String.empty_append]
  calc cs.foldl (· ++ ·) c = cs.foldl (· ++ ·) (c ++ "") := by rw [String.append_empty]
    _ = c ++ cs.foldl (· ++ ·) "" := foldl_append_shift cs c ""

lemma streamEventsFrom_eq (questionId timestamp acc : String) (cs : List String) :
    streamEventsFrom questionId timestamp acc cs =
      cs.map SSEvent.chunk ++
        [SSEvent.done (acc ++ String.join cs) questionId timestamp "gemini-2.5-flash"] := by
  induction cs generalizing acc with
  | nil =>
      simp only [streamEventsFrom, List.map_nil, List.nil_append]
      rw [show String.join [] = "" from rfl, String.append_empty]
  | cons c cs ih =>
      simp only [streamEventsFrom, List.map_cons, List.cons_append]
      rw [ih (acc ++ c), stringJoin_cons, String.append_assoc]

lemma insertBySerialDesc_length (r : AuthRecord) (l : List AuthRecord) :
    (insertBySerialDesc r l).length = l.length + 1 := by
  induction l with
  | nil => rfl
  | cons x xs ih =>
      simp only [insertBySerialDesc]
      split
      · simp
      · simp [ih]

lemma sortBySerialDesc_length (l : List AuthRecord) :
    (sortBySerialDesc l).length = l.length := by
  induction l with
  | nil => rfl
  | cons x xs ih => simp [sortBySerialDesc, insertBySerialDesc_length, ih]

lemma authQuery_length (db : List AuthRecord) (e : String) :
    (authQuery db e).length = min 1 (db.filter (fun r => r.email == e)).length := by
  simp [authQuery, List.length_take, sortBySerialDesc_length]

lemma authQuery_isEmpty (db : List AuthRecord) (e : String) :
    (authQuery db e).isEmpty = (db.filter (fun r => r.email == e)).isEmpty := by
  have hl := authQuery_length db e
  rw [Bool.eq_iff_iff]
  simp only [List.isEmpty_iff_length_eq_zero, hl]
  omega

/-! ## C1: the risk score -/

/-- C1: the risk score in a returned analysis is a pure function of the three
category counts: it equals round(100 * (green + 0.5 * yellow) / total), equals
50 when all three counts are zero, lies in [0, 100] for all nonnegative
integer inputs, and the normalizer overwrites the riskScore field of every
parsed riskAssessment block with this computed value, independently of the
value the model itself put there. -/
theorem riskScore_spec :
    (∀ g y r : ℕ, 0 < g + y + r →
      calculateRiskScore g y r =
        round ((100 : ℚ) * ((g : ℚ) + (1 / 2) * (y : ℚ)) / ((g : ℚ) + (y : ℚ) + (r : ℚ))))
    ∧ calculateRiskScore 0 0 0 = 50
    ∧ (∀ g y r : ℕ, 0 ≤ calculateRiskScore g y r ∧ calculateRiskScore g y r ≤ 100)
    ∧ (∀ (a : Analysis) (analysisId timestamp : String) (p : Parties) (ra : RiskAssessment),
        a.riskAssessment = some ra →
        ∃ ra2, (normalizeAnalysis a analysisId timestamp p).riskAssessment = some ra2 ∧
          ra2.riskScore = some (calculateRiskScore (ra.greenPoints.getD 0)
            (ra.yellowPoints.getD 0) (ra.redPoints.getD 0)))
    ∧ (∀ (ra : RiskAssessment) (v v' : Option ℤ),
        normalizeRiskAssessment { ra with riskScore := v } =
          normalizeRiskAssessment { ra with riskScore := v' }) := by
  refine ⟨?_, rfl, ?_, ?_, ?_⟩
  · intro g y r h
    have hne : ¬ (g + y + r = 0) := by omega
    simp only [calculateRiskScore, hne, if_false]
    congr 1
    push_cast
    ring
  · intro g y r
    by_cases h : g + y + r = 0
    · simp [calculateRiskScore, h]
    · have hy : (0 : ℚ) ≤ (y : ℚ) := by positivity
      have hr : (0 : ℚ) ≤ (r : ℚ) := by positivity
      have hT : (0 : ℚ) < (g : ℚ) + (y : ℚ) + (r : ℚ) := by
        have h0 : 0 < g + y + r := Nat.pos_of_ne_zero h
        exact_mod_cast h0
      have hle : (g : ℚ) + (1 / 2) * (y : ℚ) ≤ (g : ℚ) + (y : ℚ) + (r : ℚ) := by
        linarith
      have hq0 : (0 : ℚ) ≤ ((g : ℚ) + (1 / 2) * (y : ℚ)) / ((g : ℚ) + (y : ℚ) + (r : ℚ)) * 100 := by
        positivity
      have hq1 : ((g : ℚ) + (1 / 2) * (y : ℚ)) / ((g : ℚ) + (y : ℚ) + (r : ℚ)) * 100 ≤ 100 := by
        have h1 : ((g : ℚ) + (1 / 2) * (y : ℚ)) / ((g : ℚ) + (y : ℚ) + (r : ℚ)) ≤ 1 :=
          (div_le_one hT).mpr hle
        calc ((g : ℚ) + (1 / 2) * (y : ℚ)) / ((g : ℚ) + (y : ℚ) + (r : ℚ)) * 100
            ≤ 1 * 100 := mul_le_mul_of_nonneg_right h1 (by norm_num)
          _ = 100 := by norm_num
      simp only [calculateRiskScore, h, if_false, Nat.cast_add]
      rw [round_eq]
      constructor
      · rw [Int.le_floor]
        push_cast
        linarith
      · have hlt : ⌊((g : ℚ) + (1 / 2) * (y : ℚ)) / ((g : ℚ) + (y : ℚ) + (r : ℚ)) * 100 + 1 / 2⌋ < 101 := by
          rw [Int.floor_lt]
          push_cast
          linarith
        omega
  · intro a analysisId timestamp p ra h
    exact ⟨normalizeRiskAssessment ra, by simp [normalizeAnalysis, h], rfl⟩
  · intro ra v v'
    rfl

/-- Witness for C1: the overwrite clause applied to the concrete parsed
analysis aW with counts 2/1/1 and a model riskScore of 999. -/
theorem riskScore_spec_witness :
    ∃ ra2, (normalizeAnalysis aW "id0" "ts0" partiesNone).riskAssessment = some ra2 ∧
      ra2.riskScore = some (calculateRiskScore 2 1 1) :=
  riskScore_spec.2.2.2.1 aW "id0" "ts0" partiesNone raW rfl

/-! ## C6: the streaming event sequence -/

/-- C6: for every successful streaming question request, the event stream is
a sequence of chunk events followed by exactly one done event, and the done
event fullText is the in-order concatenation of all chunk texts. -/
theorem streamDone_spec (chunks : List String) (questionId timestamp : String) :
    answerQuestionStream chunks questionId timestamp =
      chunks.map SSEvent.chunk ++
        [SSEvent.done (String.join chunks) questionId timestamp "gemini-2.5-flash"] := by
  show streamEventsFrom questionId timestamp "" chunks = _
  rw [streamEventsFrom_eq, String.empty_append]

/-! ## Helper lemmas about the analyze-document handler -/

/-- The isAuthenticated flag computed from the auth lookup. -/
def authIsAuth (env : AnalyzeEnv) (e : String) : Bool :=
  !(authQuery env.db e).isEmpty

/-- The totalRecords count computed from the auth lookup. -/
def authTotal (env : AnalyzeEnv) (e : String) : ℕ :=
  if (authQuery env.db e).length > 0 then (authQuery env.db e).length else 0

lemma analyzeCore_short {env : AnalyzeEnv} {dt : String} (h : dt.length < 100)
    {source : String} {origName : Option String} {e : String} {isAuth : Bool} {tot : ℕ} :
    analyzeCore env dt source origName e isAuth tot = (.badRequest tooShortError, false) := by
  simp [analyzeCore, h]

lemma analyzeCore_long {env : AnalyzeEnv} {dt : String} (h1 : ¬ dt.length < 100)
    (h2 : dt.length > 100000)
    {source : String} {origName : Option String} {e : String} {isAuth : Bool} {tot : ℕ} :
    analyzeCore env dt source origName e isAuth tot = (.badRequest tooLongError, false) := by
  simp [analyzeCore, h1, h2]

lemma analyzeCore_ok {env : AnalyzeEnv} {dt : String} (h1 : ¬ dt.length < 100)
    (h2 : ¬ dt.length > 100000) (h3 : env.geminiConfigured = true)
    (h4 : env.providerFails = false)
    {source : String} {origName : Option String} {e : String} {isAuth : Bool} {tot : ℕ} :
    analyzeCore env dt source origName e isAuth tot =
      (.ok { analysis := geminiAnalyze env.parsed dt env.analysisId env.timestamp env.parties
             originalText := dt
             source := source
             originalFilename := origName
             contentLength := dt.length
             email := e
             isAuthenticated := isAuth
             totalRecords := tot }, true) := by
  simp [analyzeCore, h1, h2, h3, h4]

lemma analyzeCore_called {env : AnalyzeEnv} {dt : String} (h1 : ¬ dt.length < 100)
    (h2 : ¬ dt.length > 100000) (h3 : env.geminiConfigured = true)
    {source : String} {origName : Option String} {e : String} {isAuth : Bool} {tot : ℕ} :
    (analyzeCore env dt source origName e isAuth tot).2 = true := by
  cases h4 : env.providerFails <;> simp [analyzeCore, h1, h2, h3, h4]

lemma analyzeDocument_noEmail (env : AnalyzeEnv) (req : AnalyzeRequest) (df : Bool)
    (h : req.email = none) :
    (analyzeDocument env req df).response = .badRequest "Email is required for authentication" ∧
    (analyzeDocument env req df).providerCalled = false := by
  simp [analyzeDocument, h]

lemma cleanupTempFile_self (p : String) : cleanupTempFile false (some p) [p] = [] := by
  simp [cleanupTempFile]

/-- Once past the email and auth gates, a request whose documentText resolves
runs the handler tail on that text; the temp-file state depends only on
whether the source was a file. -/
lemma analyzeDocument_resolved (env : AnalyzeEnv) (req : AnalyzeRequest) (df : Bool)
    (e dt : String) (h1 : req.email = some e) (h2 : (e == "") = false)
    (h3 : env.authFails = false) (h4 : resolvedText req = some dt) :
    ∃ source origName fp tf0,
      analyzeDocument env req df =
        { response := (analyzeCore env dt source origName e (authIsAuth env e) (authTotal env e)).1
          providerCalled := (analyzeCore env dt source origName e (authIsAuth env e) (authTotal env e)).2
          tempFiles := cleanupTempFile df fp tf0 } := by
  rcases hf : req.file with _ | f
  · rcases ht : req.text with _ | t
    · simp [resolvedText, hf, ht] at h4
    · rcases hte : t == "" with _ | _
      · have hdt : t = dt := by simpa [resolvedText, hf, ht, hte] using h4
        subst hdt
        exact ⟨"text", none, none, [],
          by simp [analyzeDocument, h1, h2, h3, hf, ht, hte, authIsAuth, authTotal]⟩
      · simp [resolvedText, hf, ht, hte] at h4
  · have hx : f.extracted = some dt := by simpa [resolvedText, hf] using h4
    exact ⟨"file", some f.originalname, some f.path, [f.path],
      by simp [analyzeDocument, h1, h2, h3, hf, hx, authIsAuth, authTotal]⟩

/-! ## C2: document length validation -/

/-- C2: once a request passes the email and auth gates and its documentText
resolves, a text shorter than 100 characters yields the too-short 400 with no
provider call, a text longer than 100000 characters yields the distinct
too-long 400 with no provider call, and every in-range text reaches the
provider call when the Gemini key is configured. -/
theorem lengthValidation_spec :
    ∀ (env : AnalyzeEnv) (req : AnalyzeRequest) (df : Bool) (e dt : String),
      req.email = some e → (e == "") = false → env.authFails = false →
      resolvedText req = some dt →
      ((dt.length < 100 →
          (analyzeDocument env req df).response = .badRequest tooShortError ∧
          (analyzeDocument env req df).providerCalled = false)
       ∧ (dt.length > 100000 →
          (analyzeDocument env req df).response = .badRequest tooLongError ∧
          (analyzeDocument env req df).providerCalled = false)
       ∧ (100 ≤ dt.length → dt.length ≤ 100000 → env.geminiConfigured = true →
          (analyzeDocument env req df).providerCalled = true)
       ∧ tooShortError ≠ tooLongError) := by
  intro env req df e dt h1 h2 h3 h4
  obtain ⟨source, origName, fp, tf0, heq⟩ :=
    analyzeDocument_resolved env req df e dt h1 h2 h3 h4
  refine ⟨?_, ?_, ?_, by decide⟩
  · intro hlt
    rw [heq]
    simp [analyzeCore_short hlt]
  · intro hgt
    have h1' : ¬ dt.length < 100 := by omega
    rw [heq]
    simp [analyzeCore_long h1' hgt]
  · intro hge hle hcfg
    have h1' : ¬ dt.length < 100 := by omega
    have h2' : ¬ dt.length > 100000 := by omega
    rw [heq]
    simp [analyzeCore_called h1' h2' hcfg]

/-- Witness for C2: with the base environment and a 100-character inline
text, the provider call is made. -/
theorem lengthValidation_witness :
    (analyzeDocument envBase reqText100 false).providerCalled = true := by
  have h := lengthValidation_spec envBase reqText100 false "u@x" text100 rfl rfl rfl rfl
  exact h.2.2.1 (by decide) (by decide) rfl

/-! ## C3: backfilling of missing array fields -/

/-- C3 (amended): on a successfully parsed model response the normalizer
backfills a missing legalReferences with the empty list, a missing
suggestedQuestions with the fixed fallback set, and the three risk arrays of
a present riskAssessment with empty lists; the fields vagueTerms, keyTerms
and redFlags are passed through unchanged, so they stay absent if the model
omitted them. -/
theorem normalizerDefaults_spec :
    ∀ (a : Analysis) (analysisId timestamp : String) (p : Parties),
      ((normalizeAnalysis a analysisId timestamp p).legalReferences =
          some (a.legalReferences.getD []))
      ∧ ((normalizeAnalysis a analysisId timestamp p).suggestedQuestions =
          some (a.suggestedQuestions.getD defaultSuggestedQuestions))
      ∧ ((normalizeAnalysis a analysisId timestamp p).vagueTerms = a.vagueTerms)
      ∧ ((normalizeAnalysis a analysisId timestamp p).keyTerms = a.keyTerms)
      ∧ ((normalizeAnalysis a analysisId timestamp p).redFlags = a.redFlags)
      ∧ (∀ ra, a.riskAssessment = some ra →
          ∃ ra2, (normalizeAnalysis a analysisId timestamp p).riskAssessment = some ra2 ∧
            ra2.greenRisks = some (ra.greenRisks.getD []) ∧
            ra2.yellowRisks = some (ra.yellowRisks.getD []) ∧
            ra2.redRisks = some (ra.redRisks.getD [])) := by
  intro a analysisId timestamp p
  refine ⟨rfl, rfl, rfl, rfl, rfl, ?_⟩
  intro ra h
  exact ⟨normalizeRiskAssessment ra, by simp [normalizeAnalysis, h], rfl, rfl, rfl⟩

/-- Witness for C3: the backfill clause applied to the concrete parsed
analysis aW, whose risk arrays are all absent. -/
theorem normalizerDefaults_witness :
    ∃ ra2, (normalizeAnalysis aW "id0" "ts0" partiesNone).riskAssessment = some ra2 ∧
      ra2.greenRisks = some [] ∧ ra2.yellowRisks = some [] ∧ ra2.redRisks = some [] :=
  (normalizerDefaults_spec aW "id0" "ts0" partiesNone).2.2.2.2.2 raW rfl

/-- Counterexample to C3 as stated: on a parsed response missing vagueTerms,
keyTerms and redFlags, the normalizer leaves all three absent instead of
filling them with empty lists. -/
theorem normalizerDefaults_counterexample :
    (normalizeAnalysis allNoneAnalysis "id0" "ts0" partiesNone).vagueTerms = none ∧
    (normalizeAnalysis allNoneAnalysis "id0" "ts0" partiesNone).keyTerms = none ∧
    (normalizeAnalysis allNoneAnalysis "id0" "ts0" partiesNone).redFlags = none :=
  ⟨rfl, rfl, rfl⟩

/-! ## C4: source resolution -/

/-- C4 (amended): past the email and auth gates, a request supplying neither
a file nor nonempty inline text fails with the missing-input 400 and no
provider call; but when a file is supplied the inline text field is simply
ignored (the file branch wins), rather than the request being rejected. -/
theorem inputSource_spec :
    ∀ (env : AnalyzeEnv) (req : AnalyzeRequest) (df : Bool) (e : String),
      req.email = some e → (e == "") = false → env.authFails = false →
      ((req.file = none → (req.text = none ∨ req.text = some "") →
          (analyzeDocument env req df).response = .badRequest "No document or text provided" ∧
          (analyzeDocument env req df).providerCalled = false)
       ∧ (∀ f, req.file = some f →
          analyzeDocument env req df = analyzeDocument env { req with text := none } df)) := by
  intro env req df e h1 h2 h3
  constructor
  · intro hf ht
    rcases ht with ht | ht <;> simp [analyzeDocument, h1, h2, h3, hf, ht]
  · intro f hf
    simp [analyzeDocument, h1, h2, h3, hf]

/-- Witness for C4: with a file present, adding an inline text field does not
change the handler outcome at all. -/
theorem inputSource_witness :
    analyzeDocument envBase reqBothSources false =
      analyzeDocument envBase { reqBothSources with text := none } false :=
  (inputSource_spec envBase reqBothSources false "u@x" rfl rfl rfl).2
    ⟨"doc.txt", "/temp/u1.txt", some text100⟩ rfl

/-- Counterexample to C4 as stated: a request supplying both an uploaded
file and inline text is not rejected with a 400 before extraction or the
provider call — the provider is called and the file is analyzed. -/
theorem inputSource_counterexample :
    (analyzeDocument envBase reqBothSources false).providerCalled = true ∧
    ∃ body, (analyzeDocument envBase reqBothSources false).response = .ok body ∧
      body.source = "file" :=
  ⟨rfl, ⟨_, rfl, rfl⟩⟩

/-! ## C7: temp-file cleanup -/

/-- C7 (amended): for every request with an uploaded file that passes the
email and auth gates, the temp file is absent from the temp directory after
the handler returns on every downstream path, provided the deletion call
itself succeeds; and a failing deletion is only logged — it never changes
the response or whether the provider was called. -/
theorem tempCleanup_spec :
    ∀ (env : AnalyzeEnv) (req : AnalyzeRequest) (df df' : Bool) (e : String) (f : TempUpload),
      req.email = some e → (e == "") = false → env.authFails = false →
      req.file = some f →
      ((analyzeDocument env req false).tempFiles = [] ∧
       (analyzeDocument env req df).response = (analyzeDocument env req df').response ∧
       (analyzeDocument env req df).providerCalled =
         (analyzeDocument env req df').providerCalled) := by
  intro env req df df' e f h1 h2 h3 hf
  rcases hx : f.extracted with _ | dt
  · refine ⟨?_, ?_, ?_⟩ <;>
      simp [analyzeDocument, h1, h2, h3, hf, hx, cleanupTempFile_self]
  · refine ⟨?_, ?_, ?_⟩ <;>
      simp [analyzeDocument, h1, h2, h3, hf, hx, cleanupTempFile_self]

/-- Witness for C7: a file-only request in the base environment leaves the
temp directory empty, and a failing deletion changes neither the response
nor the provider-called flag. -/
theorem tempCleanup_witness :
    (analyzeDocument envBase reqFileOnly false).tempFiles = [] ∧
    (analyzeDocument envBase reqFileOnly true).response =
      (analyzeDocument envBase reqFileOnly false).response ∧
    (analyzeDocument envBase reqFileOnly true).providerCalled =
      (analyzeDocument envBase reqFileOnly false).providerCalled :=
  tempCleanup_spec envBase reqFileOnly true false "u@x"
    ⟨"doc.txt", "/temp/u1.txt", some text100⟩ rfl rfl rfl rfl

/-- Counterexample to C7 as stated: a request that uploads a file but omits
the email returns its 400 before the filePath variable is assigned, so the
finally block deletes nothing and the temp file is still present after the
handler returns, even though deletion itself works. -/
theorem tempCleanup_counterexample :
    (analyzeDocument envBase reqFileNoEmail false).response =
      .badRequest "Email is required for authentication" ∧
    (analyzeDocument envBase reqFileNoEmail false).tempFiles = ["/temp/u1.txt"] :=
  ⟨rfl, rfl⟩

/-! ## C8: the account-integrated userInfo block -/

/-- C8 (amended): a missing email fails with 400 before any analysis and
before the provider call; when the email is supplied, absence of any stored
record does not block analysis; and the userInfo block reports
isAuthenticated as whether any record matches the email, while totalRecords
is the size of a limit-1 query result — 1 whenever any record exists, never
the full number of prior records. -/
theorem userInfo_spec :
    (∀ (env : AnalyzeEnv) (req : AnalyzeRequest) (df : Bool), req.email = none →
       (analyzeDocument env req df).response = .badRequest "Email is required for authentication" ∧
       (analyzeDocument env req df).providerCalled = false)
    ∧ (∀ (env : AnalyzeEnv) (req : AnalyzeRequest) (df : Bool) (e dt : String),
        req.email = some e → (e == "") = false → env.authFails = false →
        resolvedText req = some dt → 100 ≤ dt.length → dt.length ≤ 100000 →
        env.geminiConfigured = true → env.providerFails = false →
        ∃ body, (analyzeDocument env req df).response = .ok body ∧
          body.isAuthenticated = !(env.db.filter (fun r => r.email == e)).isEmpty ∧
          body.totalRecords = min 1 (env.db.filter (fun r => r.email == e)).length) := by
  constructor
  · intro env req df h
    exact analyzeDocument_noEmail env req df h
  · intro env req df e dt h1 h2 h3 h4 hge hle hcfg hpf
    obtain ⟨source, origName, fp, tf0, heq⟩ :=
      analyzeDocument_resolved env req df e dt h1 h2 h3 h4
    have h1' : ¬ dt.length < 100 := by omega
    have h2' : ¬ dt.length > 100000 := by omega
    rw [heq]
    simp only [analyzeCore_ok h1' h2' hcfg hpf]
    refine ⟨_, rfl, ?_, ?_⟩
    · show authIsAuth env e = _
      simp [authIsAuth, authQuery_isEmpty]
    · show authTotal env e = _
      unfold authTotal
      rw [authQuery_length]
      split <;> omega

/-- Witness for C8: in the base environment (no stored records) an analysis
still succeeds, reporting isAuthenticated false and totalRecords 0. -/
theorem userInfo_witness :
    ∃ body, (analyzeDocument envBase reqText100 false).response = .ok body ∧
      body.isAuthenticated = false ∧ body.totalRecords = 0 := by
  have h := userInfo_spec.2 envBase reqText100 false "u@x" text100 rfl rfl rfl rfl
    (by decide) (by decide) rfl rfl
  exact h

/-- Counterexample to C8 as stated: with two stored records for the email,
the response reports totalRecords 1, not the number of prior records. -/
theorem userInfo_counterexample :
    (envTwoRecords.db.filter (fun r => r.email == "u@x")).length = 2 ∧
    ∃ body, (analyzeDocument envTwoRecords reqText100 false).response = .ok body ∧
      body.totalRecords = 1 :=
  ⟨rfl, ⟨_, rfl, rfl⟩⟩

/-! ## C5: the parse-failure fallback -/

/-- C5 (amended): when the model output fails JSON parsing but the provider
call itself succeeded, the request still succeeds with a 200 whose analysis
is the fixed fallback: its riskAssessment holds exactly one finding, tagged
"Analysis Error", in the yellow tier (green and red tiers empty), its
metadata.error is "JSON parsing failed", and its summary wordCount is the
length of splitting the original source text on the single space character
(one more than the number of spaces) — not a whitespace-split word count. -/
theorem parseFailure_spec :
    ∀ (env : AnalyzeEnv) (req : AnalyzeRequest) (df : Bool) (e dt : String),
      req.email = some e → (e == "") = false → env.authFails = false →
      resolvedText req = some dt → 100 ≤ dt.length → dt.length ≤ 100000 →
      env.geminiConfigured = true → env.providerFails = false → env.parsed = none →
      ∃ body, (analyzeDocument env req df).response = .ok body ∧
        body.analysis = fallbackAnalysis dt env.analysisId env.timestamp env.parties ∧
        (∃ ra, body.analysis.riskAssessment = some ra ∧
          ra.yellowRisks = some [analysisErrorItem] ∧
          analysisErrorItem.type = "Analysis Error" ∧
          ra.greenRisks = some [] ∧ ra.redRisks = some []) ∧
        (∃ s, body.analysis.summary = some s ∧ s.wordCount = some (splitSpaceLen dt)) ∧
        (∃ m, body.analysis.metadata = some m ∧ m.error = some "JSON parsing failed") := by
  intro env req df e dt h1 h2 h3 h4 hge hle hcfg hpf hparsed
  obtain ⟨source, origName, fp, tf0, heq⟩ :=
    analyzeDocument_resolved env req df e dt h1 h2 h3 h4
  have h1' : ¬ dt.length < 100 := by omega
  have h2' : ¬ dt.length > 100000 := by omega
  rw [heq]
  simp only [analyzeCore_ok h1' h2' hcfg hpf]
  rw [hparsed]
  exact ⟨_, rfl, rfl, ⟨_, rfl, rfl, rfl, rfl, rfl⟩, ⟨_, rfl, rfl⟩, ⟨_, rfl, rfl⟩⟩

/-! ## C9 and C10: the save-user-data endpoint -/

/-- A valid save-user-data body carrying a string email, an integral serial
and an opaque data value. -/
def saveBodyFor (e : String) (s : ℤ) (d : JVal) : SaveBody :=
  ⟨some (.jstr e), some (.jnum (s : ℚ)), some d⟩

lemma saveBodyFor_valid (e : String) (s : ℤ) (d : JVal)
    (he : (e == "") = false) (hd : jsFalsy (some d) = false) :
    saveBodyValid (saveBodyFor e s d) = true := by
  have h1 : jsFalsy (some (JVal.jstr e)) = false := by
    rw [show jsFalsy (some (JVal.jstr e)) = (e == "") from rfl, he]
  simp [saveBodyValid, saveBodyFor, h1, hd]

lemma saveBodyFor_serial (s : ℤ) :
    (some (JVal.jnum (s : ℚ))).bind JVal.asInt? = some s := by
  simp [JVal.asInt?, Rat.den_intCast, Rat.num_intCast]

/-- C9: starting from a table with no row for the composite key, saving
(email, serial, data) answers operation insert, saving the same triple again
answers operation update, and after each call the stored row for the key
holds exactly the supplied data. -/
theorem saveTwice_spec (e : String) (s : ℤ) (d : JVal) (db : List UserRow)
    (now now2 : String) (he : (e == "") = false) (hd : jsFalsy (some d) = false)
    (hnone : db.find? (rowMatches e s) = none) :
    ∃ row1 row2,
      (saveUserData (saveBodyFor e s d) db now false false).1 =
        .ok "Data saved successfully" row1 "insert" ∧
      row1.data = d ∧
      (saveUserData (saveBodyFor e s d) db now false false).2.find? (rowMatches e s) =
        some row1 ∧
      (saveUserData (saveBodyFor e s d)
          (saveUserData (saveBodyFor e s d) db now false false).2 now2 false false).1 =
        .ok "Data updated successfully" row2 "update" ∧
      row2.data = d ∧
      (saveUserData (saveBodyFor e s d)
          (saveUserData (saveBodyFor e s d) db now false false).2 now2 false false).2.find?
          (rowMatches e s) = some row2 := by
  have hvalid := saveBodyFor_valid e s d he hd
  simp only [saveBodyFor] at hvalid
  have hser := saveBodyFor_serial s
  have hrow : rowMatches e s ⟨e, s, d, none⟩ = true := by simp [rowMatches]
  have hfind1 : (db ++ [(⟨e, s, d, none⟩ : UserRow)]).find? (rowMatches e s) =
      some ⟨e, s, d, none⟩ := by
    rw [List.find?_append, hnone]
    simp [hrow]
  have hsave1 : saveUserData (saveBodyFor e s d) db now false false =
      (.ok "Data saved successfully" ⟨e, s, d, none⟩ "insert",
       db ++ [(⟨e, s, d, none⟩ : UserRow)]) := by
    simp [saveUserData, saveBodyFor, hvalid, hser, hnone, JVal.asString?]
  have hnomatch : ∀ r ∈ db, ¬ rowMatches e s r = true := List.find?_eq_none.mp hnone
  have hmap : db.map (fun r =>
      if rowMatches e s r then { r with data := d, updatedAt := some now2 } else r) = db := by
    conv_rhs => rw [← List.map_id db]
    refine List.map_congr_left ?_
    intro r hr
    simp [hnomatch r hr]
  have hsave2 : saveUserData (saveBodyFor e s d) (db ++ [(⟨e, s, d, none⟩ : UserRow)])
      now2 false false =
      (.ok "Data updated successfully" ⟨e, s, d, some now2⟩ "update",
       db ++ [(⟨e, s, d, some now2⟩ : UserRow)]) := by
    simp only [saveUserData, saveBodyFor, hvalid, hser, hfind1, JVal.asString?,
      Option.some_bind, Bool.not_true, Bool.false_eq_true, if_false]
    rw [List.map_append, hmap]
    simp [hrow]
  have hsave1b : (saveUserData (saveBodyFor e s d) db now false false).2 =
      db ++ [(⟨e, s, d, none⟩ : UserRow)] := by rw [hsave1]
  refine ⟨⟨e, s, d, none⟩, ⟨e, s, d, some now2⟩, ?_, rfl, ?_, ?_, rfl, ?_⟩
  · rw [hsave1]
  · rw [hsave1b]
    exact hfind1
  · rw [hsave1b, hsave2]
  · rw [hsave1b, hsave2]
    show (db ++ [(⟨e, s, d, some now2⟩ : UserRow)]).find? (rowMatches e s) = _
    rw [List.find?_append, hnone]
    simp [rowMatches]

/-- Witness for C9: inserting then updating the concrete triple
("u@x", 1, "blob") starting from the empty table. -/
theorem saveTwice_witness :
    ∃ row1 row2,
      (saveUserData (saveBodyFor "u@x" 1 (.jstr "blob")) [] "t1" false false).1 =
        .ok "Data saved successfully" row1 "insert" ∧
      row1.data = .jstr "blob" ∧
      (saveUserData (saveBodyFor "u@x" 1 (.jstr "blob")) [] "t1" false false).2.find?
          (rowMatches "u@x" 1) = some row1 ∧
      (saveUserData (saveBodyFor "u@x" 1 (.jstr "blob"))
          (saveUserData (saveBodyFor "u@x" 1 (.jstr "blob")) [] "t1" false false).2
          "t2" false false).1 =
        .ok "Data updated successfully" row2 "update" ∧
      row2.data = .jstr "blob" ∧
      (saveUserData (saveBodyFor "u@x" 1 (.jstr "blob"))
          (saveUserData (saveBodyFor "u@x" 1 (.jstr "blob")) [] "t1" false false).2
          "t2" false false).2.find? (rowMatches "u@x" 1) = some row2 :=
  saveTwice_spec "u@x" 1 (.jstr "blob") [] "t1" "t2" rfl rfl rfl

/-- C10: the save-user-data validation rejects with the required-fields 400
every request whose data field is a falsy JSON value (undefined, null,
false, 0 or the empty string), even though data is otherwise opaque; the
serial field, by contrast, is tested only against undefined, so a request
with serial 0 passes validation and is saved. -/
theorem saveValidation_spec :
    (∀ (body : SaveBody) (db : List UserRow) (now : String) (ff wf : Bool),
        jsFalsy body.data = true →
        saveUserData body db now ff wf =
          (.badRequest "Email, serial, and data are required", db))
    ∧ jsFalsy (some (.jnum 0)) = true
    ∧ saveBodyValid ⟨some (.jstr "u@x"), some (.jnum 0), some (.jstr "blob")⟩ = true
    ∧ (saveUserData ⟨some (.jstr "u@x"), some (.jnum 0), some (.jstr "blob")⟩ [] "t1"
          false false).1 =
        .ok "Data saved successfully" ⟨"u@x", 0, .jstr "blob", none⟩ "insert" := by
  refine ⟨?_, rfl, rfl, rfl⟩
  intro body db now ff wf h
  simp [saveUserData, saveBodyValid, h]

/-- Witness for C10: a request whose data field is JSON null is rejected
with the required-fields 400, leaving the table unchanged. -/
theorem saveValidation_witness :
    saveUserData ⟨some (.jstr "u@x"), some (.jnum 1), some .jnull⟩ [] "t" false false =
      (.badRequest "Email, serial, and data are required", []) :=
  saveValidation_spec.1 ⟨some (.jstr "u@x"), some (.jnum 1), some .jnull⟩ [] "t"
    false false rfl

/-- Witness for C5: the base environment (whose model output fails parsing)
with a 100-character inline text yields the 200 fallback response. -/
theorem parseFailure_witness :
    ∃ body, (analyzeDocument envBase reqText100 false).response = .ok body ∧
      body.analysis = fallbackAnalysis text100 "id0" "ts0" partiesNone ∧
      (∃ ra, body.analysis.riskAssessment = some ra ∧
        ra.yellowRisks = some [analysisErrorItem] ∧
        analysisErrorItem.type = "Analysis Error" ∧
        ra.greenRisks = some [] ∧ ra.redRisks = some []) ∧
      (∃ s, body.analysis.summary = some s ∧ s.wordCount = some (splitSpaceLen text100)) ∧
      (∃ m, body.analysis.metadata = some m ∧ m.error = some "JSON parsing failed") :=
  parseFailure_spec envBase reqText100 false "u@x" text100 rfl rfl rfl rfl
    (by decide) (by decide) rfl rfl rfl

set_option maxRecDepth 40000 in
/-- Counterexample to C5 as stated: on a 179-character source text made of
newline-separated pairs and containing no spaces, the fallback wordCount is
1 (split on the space character), while whitespace splitting would give 60 —
so the wordCount is not computed by whitespace splitting. -/
theorem parseFailure_wordCount_counterexample :
    ∃ s, (fallbackAnalysis c5text "id0" "ts0" partiesNone).summary = some s ∧
      s.wordCount = some (splitSpaceLen c5text) ∧
      splitSpaceLen c5text = 1 ∧
      specWhitespaceWordCount c5text = 60 ∧
      s.wordCount ≠ some (specWhitespaceWordCount c5text) := by
  refine ⟨_, rfl, rfl, by decide, by decide, by decide⟩

end LegalBackend
